import Mathlib

/-!
Verification of the london-prayer-times-unified-auto generators.

The repository consists of three Python scripts:
  * generate_london_prayer_times.py      (rolling 7-day window, stale fallback)
  * generate_london_prayer_times_1yr.py  (full calendar year)
  * generate_london_ramadan_times.py     (Ramadan window from the Hijri calendar)

This file shallowly embeds the pure logic of those scripts: JSON values are an
inductive type, Python dicts are association lists with first-match lookup
(the most recently inserted binding is consulted first, matching `dict.update`
and `d[k] = v` overwrite semantics), exceptions are `Except`, the network and
the Hijri conversion library are oracle parameters, and file-system state is an
explicit datatype.
-/

/-- A JSON value, as produced by `json.loads` / consumed by `json.dumps`. -/
inductive Json where
  | null : Json
  | bool (b : Bool) : Json
  | num (n : Int) : Json
  | str (s : String) : Json
  | arr (xs : List Json) : Json
  | obj (kvs : List (String × Json)) : Json

/-- A Python `dict[str, ...]`, modelled as an association list.  Lookup finds
the FIRST matching key, so insertion/overwrite is modelled by prepending. -/
abbrev Dict := List (String × Json)

/-- `d.get(k)` on a dict: first binding of `k`, if any. -/
def dictGet : Dict → String → Option Json
  | [], _ => none
  | (k₁, v) :: rest, k => if k₁ = k then some v else dictGet rest k

/-- `j.get(k)` where `j` is known to be a JSON object; `none` otherwise. -/
def objGet (j : Json) (k : String) : Option Json :=
  match j with
  | .obj kvs => dictGet kvs k
  | _ => none

/-- `isinstance(j, dict)`. -/
def Json.isObj : Json → Bool
  | .obj _ => true
  | _ => false

/-- `isinstance(d.get(k), dict)` pattern: the lookup produced a JSON object. -/
def isObjSome : Option Json → Bool
  | some (.obj _) => true
  | _ => false

/-- `raw.get(key, "")` from the normalisers: value at `key`, defaulting to the
empty string. -/
def rawGet (raw : Dict) (k : String) : Json :=
  (dictGet raw k).getD (.str "")

/-- `_normalise_day` from generate_london_prayer_times.py (an identical copy
appears in generate_london_prayer_times_1yr.py). -/
def normalise_day (date_key : String) (raw : Dict) : Dict :=
  [ ("date", .str date_key),
    ("fajr", rawGet raw "fajr"),
    ("fajr_jamaah", rawGet raw "fajr_jamat"),
    ("sunrise", rawGet raw "sunrise"),
    ("dhuhr", rawGet raw "dhuhr"),
    ("dhuhr_jamaah", rawGet raw "dhuhr_jamat"),
    ("asr", rawGet raw "asr"),
    ("asr_hanafi", rawGet raw "asr_2"),
    ("asr_jamaah", rawGet raw "asr_jamat"),
    ("maghrib", rawGet raw "magrib"),
    ("maghrib_jamaah", rawGet raw "magrib_jamat"),
    ("isha", rawGet raw "isha"),
    ("isha_jamaah", rawGet raw "isha_jamat") ]

/-- `_normalise_ramadan_day` from generate_london_ramadan_times.py. -/
def normalise_ramadan_day (date_key : String) (raw : Dict) (ramadan_day : Int) : Dict :=
  [ ("date", .str date_key),
    ("ramadan_day", .num ramadan_day),
    ("fajr", rawGet raw "fajr"),
    ("suhoor_end", rawGet raw "fajr"),
    ("sunrise", rawGet raw "sunrise"),
    ("dhuhr", rawGet raw "dhuhr"),
    ("asr", rawGet raw "asr"),
    ("asr_hanafi", rawGet raw "asr_2"),
    ("maghrib", rawGet raw "magrib"),
    ("iftar", rawGet raw "magrib"),
    ("isha", rawGet raw "isha") ]

/-- The fixed output field set named by the spec for the 7-day / 1-year
normaliser (excluding the `date` key). -/
def fixedTimeFields : List String :=
  ["fajr", "fajr_jamaah", "sunrise", "dhuhr", "dhuhr_jamaah", "asr",
   "asr_hanafi", "asr_jamaah", "maghrib", "maghrib_jamaah", "isha", "isha_jamaah"]

/-- The time fields the Ramadan normaliser actually emits. -/
def ramadanTimeFields : List String :=
  ["fajr", "suhoor_end", "sunrise", "dhuhr", "asr", "asr_hanafi", "maghrib",
   "iftar", "isha"]

/-- The congregational fields of the fixed set that the Ramadan normaliser
does not emit. -/
def jamaahFields : List String :=
  ["fajr_jamaah", "dhuhr_jamaah", "asr_jamaah", "maghrib_jamaah", "isha_jamaah"]

/-! ## Calendar dates (Python `datetime.date`) -/

/-- A Gregorian calendar date, mirroring Python `datetime.date(y, m, d)`. -/
structure GDate where
  y : Int
  m : Nat
  d : Nat
deriving DecidableEq, Repr

/-- The Gregorian leap-year rule used by `datetime.date`. -/
def isLeap (y : Int) : Bool :=
  (decide (y % 4 = 0) && decide (y % 100 ≠ 0)) || decide (y % 400 = 0)

/-- Number of days in month `m` of year `y`. -/
def monthLen (y : Int) (m : Nat) : Nat :=
  if m = 2 then (if isLeap y then 29 else 28)
  else if m = 4 ∨ m = 6 ∨ m = 9 ∨ m = 11 then 30
  else 31

/-- The validity check performed by the `datetime.date` constructor. -/
def isValidDate (dt : GDate) : Bool :=
  decide (1 ≤ dt.y) && decide (dt.y ≤ 9999) &&
  decide (1 ≤ dt.m) && decide (dt.m ≤ 12) &&
  decide (1 ≤ dt.d) && decide (dt.d ≤ monthLen dt.y dt.m)

/-- `datetime.date(y, m, d)`: yields the date, or raises `ValueError`. -/
def mkDate (y : Int) (m d : Nat) : Except Unit GDate :=
  if isValidDate ⟨y, m, d⟩ then .ok ⟨y, m, d⟩ else .error ()

/-- The canonical next calendar day (what `d + timedelta(days=1)` computes on a
valid date).  Used to state what a gap-free date sequence is. -/
def succDate (dt : GDate) : GDate :=
  if dt.d < monthLen dt.y dt.m then ⟨dt.y, dt.m, dt.d + 1⟩
  else if dt.m < 12 then ⟨dt.y, dt.m + 1, 1⟩
  else ⟨dt.y + 1, 1, 1⟩

/-- `n`-fold application of `succDate`. -/
def succIter (dt : GDate) : Nat → GDate
  | 0 => dt
  | n + 1 => succIter (succDate dt) n

/-- The ascending gap-free list of `n` consecutive dates starting at `dt`. -/
def listFrom (dt : GDate) : Nat → List GDate
  | 0 => []
  | n + 1 => dt :: listFrom (succDate dt) n

/-- Python `date.__le__` (lexicographic on year, month, day). -/
def dateLe (a b : GDate) : Bool :=
  decide (a.y < b.y) ||
    (decide (a.y = b.y) &&
      (decide (a.m < b.m) || (decide (a.m = b.m) && decide (a.d ≤ b.d))))

/-- Left-pad a numeral to two digits. -/
def pad2 (n : Nat) : String :=
  if n < 10 then "0" ++ toString n else toString n

/-- Left-pad a numeral to four digits (years of interest are ≥ 1000). -/
def pad4 (n : Nat) : String :=
  if n < 10 then "000" ++ toString n
  else if n < 100 then "00" ++ toString n
  else if n < 1000 then "0" ++ toString n
  else toString n

/-- `date.isoformat()`. -/
def isoFormat (dt : GDate) : String :=
  pad4 dt.y.toNat ++ "-" ++ pad2 dt.m ++ "-" ++ pad2 dt.d

/-! ## The Ramadan day-by-day loop (generate_london_ramadan_times.py, main) -/

/-- Day increment on the branch where the current date HAS fetched data:
```
if current_date.month == 12 and current_date.day == 31:
    current_date = date(current_date.year + 1, 1, 1)
elif current_date.day == 28 and current_date.month == 2:
    current_date = date(current_date.year, 3, 1)
else:
    try:
        current_date = date(current_date.year, current_date.month, current_date.day + 1)
    except ValueError:
        current_date = date(current_date.year, current_date.month + 1, 1)
```
An uncaught `ValueError` from the fallback constructor is `.error ()`. -/
def nextPresent (dt : GDate) : Except Unit GDate :=
  if dt.m = 12 ∧ dt.d = 31 then .ok ⟨dt.y + 1, 1, 1⟩
  else if dt.d = 28 ∧ dt.m = 2 then .ok ⟨dt.y, 3, 1⟩
  else
    match mkDate dt.y dt.m (dt.d + 1) with
    | .ok nd => .ok nd
    | .error _ => mkDate dt.y (dt.m + 1) 1

/-- Day increment on the branch where the current date has NO fetched data:
```
current_date = date(current_date.year, current_date.month, current_date.day + 1)
               if current_date.day < 28 else date(current_date.year, current_date.month + 1, 1)
```
Either constructor may raise `ValueError`, uncaught on this branch. -/
def nextMissing (dt : GDate) : Except Unit GDate :=
  if dt.d < 28 then mkDate dt.y dt.m (dt.d + 1) else mkDate dt.y (dt.m + 1) 1

/-- Why the embedded Ramadan loop stopped without a result: the model ran out
of fuel (the Python loop has none), or the program raised `ValueError`. -/
inductive LoopStop where
  | fuelOut : LoopStop
  | valueError : LoopStop
deriving DecidableEq

/-- The `while current_date <= ramadan_end` loop of the Ramadan generator.
Returns the list of dates visited by the loop body, the accumulated `days`
payload entries, and the accumulated `missing_dates` (as ISO strings). -/
def ramadanLoop (combined : Dict) (endD : GDate) :
    Nat → GDate → Int → Except LoopStop (List GDate × List Json × List String)
  | 0, _, _ => .error .fuelOut
  | fuel + 1, cur, rday =>
    if dateLe cur endD then
      let dk := isoFormat cur
      match dictGet combined dk with
      | some (.obj raw) =>
        match nextPresent cur with
        | .ok nd =>
          match ramadanLoop combined endD fuel nd (rday + 1) with
          | .ok (vis, ds, ms) =>
            .ok (cur :: vis, .obj (normalise_ramadan_day dk raw rday) :: ds, ms)
          | .error e => .error e
        | .error _ => .error .valueError
      | _ =>
        match nextMissing cur with
        | .ok nd =>
          match ramadanLoop combined endD fuel nd (rday + 1) with
          | .ok (vis, ds, ms) => .ok (cur :: vis, ds, dk :: ms)
          | .error e => .error e
        | .error _ => .error .valueError
    else .ok ([], [], [])

/-! ## Errors raised by the scripts -/

/-- The failure modes of the scripts.  `PrayerGenerationError` instances are
split by which raise site produced them; `attrError` / `uncaughtValueError`
are ordinary Python exceptions that escape uncaught. -/
inductive Err where
  | configError (msg : String) : Err
  | fetchFailed (year month : Nat) (lastError : Option String) : Err
  | generationError (msg : String) : Err
  | resolutionError (year : Int) : Err
  | attrError : Err
  | uncaughtValueError : Err
deriving DecidableEq

/-! ## Ramadan range resolution (generate_london_ramadan_times.py,
`_get_ramadan_range`).

The Hijri-to-Gregorian conversion is the external hijri_converter library,
modelled as an oracle `conv hy hm hd`; `none` means `to_gregorian()` (or the
`Hijri` constructor) raised for that Hijri date. -/

/-- Whether Hijri year `hy` is the one the search loop accepts for Gregorian
year `year`: its Ramadan 1st converts into `year`, or into December of
`year - 1`.  (`false` also when the conversion oracle has no value, in which
case the real code would crash before testing the condition.) -/
def ramadan_match (conv : Nat → Nat → Nat → Option GDate) (year : Int) (hy : Nat) : Bool :=
  match conv hy 9 1 with
  | some d => decide (d.y = year) || (decide (d.y = year - 1) && decide (d.m = 12))
  | none => false

/-- The `for hijri_year in range(1440, 1460)` search loop. -/
def ramadan_go (conv : Nat → Nat → Nat → Option GDate) (year : Int) :
    List Nat → Except Err (GDate × GDate)
  | [] => .error (.resolutionError year)
  | hy :: rest =>
    match conv hy 9 1 with
    | none => .error .uncaughtValueError
    | some d =>
      if decide (d.y = year) || (decide (d.y = year - 1) && decide (d.m = 12)) then
        match conv hy 9 30 with
        | some e => .ok (d, e)
        | none =>
          match conv hy 9 29 with
          | some e => .ok (d, e)
          | none => .error .uncaughtValueError
      else ramadan_go conv year rest

/-- `_get_ramadan_range`: search Hijri years 1440..1459 for the Ramadan whose
first day lands in `year` (or December of `year - 1`); the end date is day 30
of that Hijri month, falling back to day 29 when the conversion rejects 30. -/
def get_ramadan_range (conv : Nat → Nat → Nat → Option GDate) (year : Int) :
    Except Err (GDate × GDate) :=
  ramadan_go conv year (List.range' 1440 20)

/-! ## Resilient month fetch (generate_london_prayer_times.py, `_fetch_month`) -/

/-- Outcome of one `session.get` + `raise_for_status` + `response.json()`
sequence: either some exception was raised (transport error, non-2xx status,
malformed JSON body), or a 2xx response parsed to the given JSON value. -/
inductive NetResult where
  | exn (msg : String) : NetResult
  | ok (payload : Json) : NetResult

/-- The body of the inner `try` of `_fetch_month` for one endpoint call:
on a parsed payload, `payload.get("times")` must be a dict, else a
`PrayerGenerationError` is raised (and caught by the enclosing handler);
`payload.get` on a non-dict payload raises `AttributeError` (also caught). -/
def tryEndpoint (year month : Nat) (r : NetResult) : Except String Dict :=
  match r with
  | .exn m => .error m
  | .ok p =>
    match p with
    | .obj kvs =>
      match dictGet kvs "times" with
      | some (.obj times) => .ok times
      | _ => .error ("API response for " ++ toString year ++ "-" ++ pad2 month ++
          " does not include a valid times object")
    | _ => .error "AttributeError"

/-- The `(attempt, endpoint index)` pairs visited by the two nested loops
`for attempt in range(1, MAX_NETWORK_ATTEMPTS + 1): for api_url in API_URLS:`
in execution order (attempt-major). -/
def attemptPairs (maxAttempts nUrls : Nat) : List (Nat × Nat) :=
  (List.range' 1 maxAttempts).flatMap fun a => (List.range nUrls).map fun u => (a, u)

/-- The error recorded in `last_error` by the call at `p`, if it failed. -/
def callErr (net : Nat → Nat → NetResult) (year month : Nat) (p : Nat × Nat) :
    Option String :=
  match tryEndpoint year month (net p.1 p.2) with
  | .error s => some s
  | .ok _ => none

/-- The value of `last_error` after executing the calls in `l` (all failing
calls overwrite it in order), starting from `last`. -/
def lastErrOf (net : Nat → Nat → NetResult) (year month : Nat)
    (l : List (Nat × Nat)) (last : Option String) : Option String :=
  l.foldl (fun acc p => match callErr net year month p with
    | some s => some s
    | none => acc) last

/-- The attempt × endpoint loop of `_fetch_month`: returns the list of calls
actually issued together with the result — the `times` dict of the first
successful call, or `PrayerGenerationError` wrapping the last error once every
call has failed. -/
def fetchGo (net : Nat → Nat → NetResult) (year month : Nat) :
    List (Nat × Nat) → Option String → List (Nat × Nat) × Except Err Dict
  | [], lastE => ([], .error (.fetchFailed year month lastE))
  | p :: rest, _lastE =>
    match tryEndpoint year month (net p.1 p.2) with
    | .ok t => ([p], .ok t)
    | .error msg =>
      let r := fetchGo net year month rest (some msg)
      (p :: r.1, r.2)

/-- `_fetch_month`, with the network as an oracle indexed by attempt number
and endpoint index. -/
def fetch_month (net : Nat → Nat → NetResult) (maxAttempts nUrls year month : Nat) :
    List (Nat × Nat) × Except Err Dict :=
  fetchGo net year month (attemptPairs maxAttempts nUrls) none

/-! ## Stale snapshot loading (generate_london_prayer_times.py) -/

/-- On-disk state of the previous output file as `_load_existing_days` sees
it: missing, present but rejected by `json.loads` (`JSONDecodeError`), or
present and parsed to a JSON value. -/
inductive FileState where
  | absent : FileState
  | invalidJson : FileState
  | parsed (payload : Json) : FileState

/-- `_load_existing_days`: returns the filtered `days` list of the previous
payload, `[]` when the file is absent, fails JSON decoding, or has no list
under `days`.  `payload.get("days")` on a payload that parsed to a non-object
raises an uncaught `AttributeError`. -/
def load_existing_days : FileState → Except Err (List Json)
  | .absent => .ok []
  | .invalidJson => .ok []
  | .parsed payload =>
    match payload with
    | .obj kvs =>
      match dictGet kvs "days" with
      | some (.arr items) =>
        .ok (items.filter fun item =>
          match item with
          | .obj ikvs =>
            (match dictGet ikvs "date" with
             | some (.str _) => true
             | _ => false)
          | _ => false)
      | _ => .ok []
    | _ => .error .attrError

/-- `_dates_map`: index day records by their (truthy, i.e. nonempty) `date`
string, later records overwriting earlier ones.  The only caller feeds it the
output of `_load_existing_days`, whose records are all objects carrying a
string `date`. -/
def dates_map (days : List Json) : Dict :=
  days.foldl (fun acc day =>
    match day with
    | .obj kvs =>
      (match dictGet kvs "date" with
       | some (.str k) => if k ≠ "" then (k, day) :: acc else acc
       | _ => acc)
    | _ => acc) []

/-! ## API keys -/

def DEFAULT_API_KEY : String := "2a99f189-6e3b-4015-8fb8-ff277642561d"

/-- `_api_key` of the 7-day script: the trimmed environment value when it is
set and nonblank, else the baked-in default key. -/
def api_key7 (env : Option String) : String :=
  match env with
  | some value => if value.trim ≠ "" then value.trim else DEFAULT_API_KEY
  | none => DEFAULT_API_KEY

/-- `_api_key` of the 1-year and Ramadan scripts: the trimmed environment
value, or a `PrayerGenerationError` when unset or blank. -/
def api_key_year (env : Option String) : Except Err String :=
  if (env.getD "").trim = "" then
    .error (.configError "LONDON_PRAYER_TIMES_API_KEY environment variable is not set")
  else .ok ((env.getD "").trim)

/-! ## The rolling 7-day build (generate_london_prayer_times.py, main) -/

/-- The `try: for year, month in month_pairs: combined_times.update(...)`
block: fold the per-month fetch results in order, stopping at the first
raised `PrayerGenerationError`; returns the merged `combined_times` and the
`network_failed` flag. -/
def combineGo (acc : Dict) : List (Except Err Dict) → Dict × Bool
  | [] => (acc, false)
  | .error _ :: _ => (acc, true)
  | .ok t :: rest => combineGo (t ++ acc) rest

/-- `combined_times` and `network_failed` as functions of the sequence of
per-month fetch outcomes. -/
def combineFetches (fetches : List (Except Err Dict)) : Dict × Bool :=
  combineGo [] fetches

/-- The `for date_obj in target_dates:` loop of the 7-day main: for each
target date key, a fresh dict is normalised, a missing-from-fresh date falls
back to the stale snapshot record (appended verbatim), and a date in neither
is recorded missing.  Returns (`days`, `missing_dates`).  With an empty
`staleMap` this is also, verbatim, the day loop of the 1-year main (which has
no stale fallback). -/
def buildDays (targets : List String) (combined staleMap : Dict) :
    List Json × List String :=
  match targets with
  | [] => ([], [])
  | dk :: rest =>
    match dictGet combined dk with
    | some (.obj raw) =>
      (.obj (normalise_day dk raw) :: (buildDays rest combined staleMap).1,
       (buildDays rest combined staleMap).2)
    | _ =>
      match dictGet staleMap dk with
      | some s =>
        if s.isObj then
          (s :: (buildDays rest combined staleMap).1, (buildDays rest combined staleMap).2)
        else
          ((buildDays rest combined staleMap).1, dk :: (buildDays rest combined staleMap).2)
      | none =>
        ((buildDays rest combined staleMap).1, dk :: (buildDays rest combined staleMap).2)

/-- The payload literal written by the 7-day main. -/
def payload7d (genAt effToday : String) (fallbackUsed : Bool) (days : List Json) : Json :=
  .obj [ ("source", .obj [("name", .str "London Unified Prayer Times API"),
                          ("url", .str "https://www.londonprayertimes.com/api")]),
         ("timezone", .str "Europe/London"),
         ("generated_at", .str genAt),
         ("effective_today", .str effToday),
         ("days_count", .num (days.length : Int)),
         ("fallback_used", .bool fallbackUsed),
         ("days", .arr days) ]

/-- `main` of generate_london_prayer_times.py.  Oracles: `env` the API-key
environment variable, `genAt`/`effToday` the clock readings, `targets` the
seven ISO date keys of the rolling window, `fetches` the per-month network
outcomes, `fs` the on-disk state of the previous output.  Returns the list of
payloads written to the output file (empty or a singleton — the write is the
final statement of `main`) and the run outcome. -/
def main7d (env : Option String) (genAt effToday : String) (targets : List String)
    (fetches : List (Except Err Dict)) (fs : FileState) :
    List Json × Except Err Unit :=
  if api_key7 env = "" then
    ([], .error (.configError "Missing London Prayer Times API key"))
  else
    match load_existing_days fs with
    | .error e => ([], .error e)
    | .ok existing =>
      if (buildDays targets (combineFetches fetches).1 (dates_map existing)).2 = [] then
        ([payload7d genAt effToday (combineFetches fetches).2
            (buildDays targets (combineFetches fetches).1 (dates_map existing)).1], .ok ())
      else
        ([], .error (.generationError
          ("Missing timetable data for dates: " ++ String.intercalate ", "
            (buildDays targets (combineFetches fetches).1 (dates_map existing)).2)))

/-! ## The 1-year build (generate_london_prayer_times_1yr.py, main) -/

/-- The payload literal written by the 1-year main. -/
def payload1yr (genAt : String) (year : Int) (days : List Json) : Json :=
  .obj [ ("source", .obj [("name", .str "London Unified Prayer Times API"),
                          ("url", .str "https://www.londonprayertimes.com/api")]),
         ("timezone", .str "Europe/London"),
         ("generated_at", .str genAt),
         ("year", .num year),
         ("start_date", .str (isoFormat ⟨year, 1, 1⟩)),
         ("end_date", .str (isoFormat ⟨year, 12, 31⟩)),
         ("days_count", .num (days.length : Int)),
         ("days", .arr days) ]

/-- The Jan 1 .. Dec 31 target date-key list of the 1-year main, generated
with `timedelta(days=1)`, i.e. the canonical successor. -/
def targets1yr (year : Int) : List String :=
  (listFrom ⟨year, 1, 1⟩ (if isLeap year then 366 else 365)).map isoFormat

/-- `main` of generate_london_prayer_times_1yr.py.  `fetchRes` is the outcome
of `_fetch_year` (exceptions propagate out of `main`). -/
def main1yr (year : Int) (env : Option String) (genAt : String)
    (fetchRes : Except Err Dict) : List Json × Except Err Unit :=
  match api_key_year env with
  | .error e => ([], .error e)
  | .ok key =>
    if key = "" then ([], .error (.configError "Missing London Prayer Times API key"))
    else
      match fetchRes with
      | .error e => ([], .error e)
      | .ok combined =>
        if (buildDays (targets1yr year) combined []).2 = [] then
          ([payload1yr genAt year (buildDays (targets1yr year) combined []).1], .ok ())
        else
          ([], .error (.generationError
            ("Missing timetable data for dates: " ++ String.intercalate ", "
              (buildDays (targets1yr year) combined []).2)))

/-! ## The Ramadan build tail (generate_london_ramadan_times.py, main) -/

/-- The payload literal written by the Ramadan main. -/
def payloadRamadan (genAt : String) (ramadanYear : Int) (startD endD : GDate)
    (days : List Json) : Json :=
  .obj [ ("source", .obj [("name", .str "London Unified Prayer Times API"),
                          ("url", .str "https://www.londonprayertimes.com/api")]),
         ("timezone", .str "Europe/London"),
         ("generated_at", .str genAt),
         ("ramadan_year", .num ramadanYear),
         ("start_date", .str (isoFormat startD)),
         ("end_date", .str (isoFormat endD)),
         ("days_count", .num (days.length : Int)),
         ("days", .arr days) ]

/-- The tail of the Ramadan main after the range has been resolved and the
needed years fetched: run the day loop from the start date with
`ramadan_day = 1`, then either fail with the first five missing dates joined
into the diagnostic, or write the payload.  `none` is the model artifact of
running out of fuel. -/
def ramadanBuild (combined : Dict) (startD endD : GDate) (fuel : Nat)
    (genAt : String) (ramadanYear : Int) : Option (List Json × Except Err Unit) :=
  match ramadanLoop combined endD fuel startD 1 with
  | .error .fuelOut => none
  | .error .valueError => some ([], .error .uncaughtValueError)
  | .ok (_, ds, ms) =>
    if ms = [] then some ([payloadRamadan genAt ramadanYear startD endD ds], .ok ())
    else
      some ([], .error (.generationError
        ("Missing timetable data for dates: " ++ String.intercalate ", " (ms.take 5))))

/-! ## Concrete fixtures used to instantiate the oracle-parametric theorems -/

/-- A Hijri conversion oracle for which Hijri 1445 is the match for 2024:
Ramadan 1, 1445 AH converts to 2024-03-11, day 30 is rejected, day 29
converts to 2024-04-08, and every other probed Hijri year converts far away
from 2024. -/
def convW : Nat → Nat → Nat → Option GDate := fun hy _hm hd =>
  if hy = 1445 ∧ hd = 30 then none
  else if hy = 1445 ∧ hd = 1 then some ⟨2024, 3, 11⟩
  else if hy = 1445 ∧ hd = 29 then some ⟨2024, 4, 8⟩
  else some ⟨1111, 1, 1⟩

/-- A network oracle: the first endpoint of the first attempt raises, the
second endpoint returns a valid `times` payload. -/
def netW : Nat → Nat → NetResult := fun a u =>
  if a = 1 ∧ u = 0 then .exn "connection refused"
  else .ok (.obj [("times", .obj [("2025-01-01", .obj [("fajr", .str "06:30")])])])

/-- `isinstance`-style test of whether a per-month fetch outcome raised. -/
def fetchRaised : Except Err Dict → Bool
  | .error _ => true
  | .ok _ => false

/-- A previous 7-day output file carrying one stale day record. -/
def staleDay35 : Json :=
  .obj [("date", .str "2024-06-05"), ("fajr", .str "02:58")]

/-- The on-disk state holding `staleDay35`. -/
def stale35 : FileState :=
  .parsed (.obj [("days", .arr [staleDay35])])

/-- Fetched data covering 2024-03-30 .. 2024-03-31. -/
def comb4 : Dict :=
  [("2024-03-30", .obj [("fajr", .str "04:30")]), ("2024-03-31", .obj [])]

/-- Fetched data covering every day of 2024-02-27 .. 2024-03-01, including
leap day 2024-02-29. -/
def comb4b : Dict :=
  [("2024-02-27", .obj []), ("2024-02-28", .obj []),
   ("2024-02-29", .obj []), ("2024-03-01", .obj [])]

/-! # Theorems -/

/-- Claim C6: `_normalise_day` is total and reads each output field through its
fixed provider alias, substituting the empty string when the alias is absent;
a raw record missing all fields yields every time field empty with `date`
equal to the input key, and the record with only `fajr_jamat = 05:10` and
`magrib = 18:02` yields exactly those two fields populated. -/
theorem normalise_day_aliases : ∀ (dk : String) (raw : Dict),
    dictGet (normalise_day dk raw) "date" = some (.str dk)
  ∧ dictGet (normalise_day dk raw) "fajr" = some (rawGet raw "fajr")
  ∧ dictGet (normalise_day dk raw) "fajr_jamaah" = some (rawGet raw "fajr_jamat")
  ∧ dictGet (normalise_day dk raw) "sunrise" = some (rawGet raw "sunrise")
  ∧ dictGet (normalise_day dk raw) "dhuhr" = some (rawGet raw "dhuhr")
  ∧ dictGet (normalise_day dk raw) "dhuhr_jamaah" = some (rawGet raw "dhuhr_jamat")
  ∧ dictGet (normalise_day dk raw) "asr" = some (rawGet raw "asr")
  ∧ dictGet (normalise_day dk raw) "asr_hanafi" = some (rawGet raw "asr_2")
  ∧ dictGet (normalise_day dk raw) "asr_jamaah" = some (rawGet raw "asr_jamat")
  ∧ dictGet (normalise_day dk raw) "maghrib" = some (rawGet raw "magrib")
  ∧ dictGet (normalise_day dk raw) "maghrib_jamaah" = some (rawGet raw "magrib_jamat")
  ∧ dictGet (normalise_day dk raw) "isha" = some (rawGet raw "isha")
  ∧ dictGet (normalise_day dk raw) "isha_jamaah" = some (rawGet raw "isha_jamat")
  ∧ normalise_day dk [] =
      [ ("date", .str dk), ("fajr", .str ""), ("fajr_jamaah", .str ""),
        ("sunrise", .str ""), ("dhuhr", .str ""), ("dhuhr_jamaah", .str ""),
        ("asr", .str ""), ("asr_hanafi", .str ""), ("asr_jamaah", .str ""),
        ("maghrib", .str ""), ("maghrib_jamaah", .str ""), ("isha", .str ""),
        ("isha_jamaah", .str "") ]
  ∧ normalise_day "2024-03-10" [("fajr_jamat", .str "05:10"), ("magrib", .str "18:02")] =
      [ ("date", .str "2024-03-10"), ("fajr", .str ""), ("fajr_jamaah", .str "05:10"),
        ("sunrise", .str ""), ("dhuhr", .str ""), ("dhuhr_jamaah", .str ""),
        ("asr", .str ""), ("asr_hanafi", .str ""), ("asr_jamaah", .str ""),
        ("maghrib", .str "18:02"), ("maghrib_jamaah", .str ""), ("isha", .str ""),
        ("isha_jamaah", .str "") ] := by
  intro dk raw
  exact ⟨rfl, rfl, rfl, rfl, rfl, rfl, rfl, rfl, rfl, rfl, rfl, rfl, rfl, rfl, rfl⟩

/-- Claim C5 counterexample: the Ramadan-variant normalised day does NOT
contain every field of the fixed set — `fajr_jamaah` is absent from the
output of `_normalise_ramadan_day`, even when the provider supplied
`fajr_jamat`. -/
theorem normalise_ramadan_day_missing_jamaah :
    dictGet (normalise_ramadan_day "2024-03-10"
      [("fajr_jamat", .str "05:10"), ("magrib", .str "18:02")] 1) "fajr_jamaah" = none :=
  rfl

/-- Claim C5 (amended): the 7-day / 1-year normaliser emits the full fixed
field set plus `date`, each field read through its provider alias with the
empty string substituted when the alias is absent (never omitted); the
Ramadan normaliser emits `date`, an integer `ramadan_day`, and its own field
set (fajr, suhoor_end, sunrise, dhuhr, asr, asr_hanafi, maghrib, iftar,
isha) with the same empty-string defaulting, but omits the five
congregational (`_jamaah`) fields of the fixed set; in particular a raw
record missing all fields normalises, in either variant, to every time field
equal to the empty string. -/
theorem normalised_day_fields : ∀ (dk : String) (raw : Dict) (rd : Int),
    (∀ f ∈ "date" :: fixedTimeFields, (dictGet (normalise_day dk raw) f).isSome = true)
  ∧ (∀ f ∈ "date" :: ramadanTimeFields,
      (dictGet (normalise_ramadan_day dk raw rd) f).isSome = true)
  ∧ (∀ f ∈ jamaahFields, dictGet (normalise_ramadan_day dk raw rd) f = none)
  ∧ (∀ a, dictGet raw a = none → rawGet raw a = .str "")
  ∧ dictGet (normalise_day dk raw) "date" = some (.str dk)
  ∧ dictGet (normalise_day dk raw) "fajr" = some (rawGet raw "fajr")
  ∧ dictGet (normalise_day dk raw) "fajr_jamaah" = some (rawGet raw "fajr_jamat")
  ∧ dictGet (normalise_day dk raw) "sunrise" = some (rawGet raw "sunrise")
  ∧ dictGet (normalise_day dk raw) "dhuhr" = some (rawGet raw "dhuhr")
  ∧ dictGet (normalise_day dk raw) "dhuhr_jamaah" = some (rawGet raw "dhuhr_jamat")
  ∧ dictGet (normalise_day dk raw) "asr" = some (rawGet raw "asr")
  ∧ dictGet (normalise_day dk raw) "asr_hanafi" = some (rawGet raw "asr_2")
  ∧ dictGet (normalise_day dk raw) "asr_jamaah" = some (rawGet raw "asr_jamat")
  ∧ dictGet (normalise_day dk raw) "maghrib" = some (rawGet raw "magrib")
  ∧ dictGet (normalise_day dk raw) "maghrib_jamaah" = some (rawGet raw "magrib_jamat")
  ∧ dictGet (normalise_day dk raw) "isha" = some (rawGet raw "isha")
  ∧ dictGet (normalise_day dk raw) "isha_jamaah" = some (rawGet raw "isha_jamat")
  ∧ dictGet (normalise_ramadan_day dk raw rd) "date" = some (.str dk)
  ∧ dictGet (normalise_ramadan_day dk raw rd) "ramadan_day" = some (.num rd)
  ∧ dictGet (normalise_ramadan_day dk raw rd) "fajr" = some (rawGet raw "fajr")
  ∧ dictGet (normalise_ramadan_day dk raw rd) "suhoor_end" = some (rawGet raw "fajr")
  ∧ dictGet (normalise_ramadan_day dk raw rd) "sunrise" = some (rawGet raw "sunrise")
  ∧ dictGet (normalise_ramadan_day dk raw rd) "dhuhr" = some (rawGet raw "dhuhr")
  ∧ dictGet (normalise_ramadan_day dk raw rd) "asr" = some (rawGet raw "asr")
  ∧ dictGet (normalise_ramadan_day dk raw rd) "asr_hanafi" = some (rawGet raw "asr_2")
  ∧ dictGet (normalise_ramadan_day dk raw rd) "maghrib" = some (rawGet raw "magrib")
  ∧ dictGet (normalise_ramadan_day dk raw rd) "iftar" = some (rawGet raw "magrib")
  ∧ dictGet (normalise_ramadan_day dk raw rd) "isha" = some (rawGet raw "isha")
  ∧ normalise_day dk [] =
      [ ("date", .str dk), ("fajr", .str ""), ("fajr_jamaah", .str ""),
        ("sunrise", .str ""), ("dhuhr", .str ""), ("dhuhr_jamaah", .str ""),
        ("asr", .str ""), ("asr_hanafi", .str ""), ("asr_jamaah", .str ""),
        ("maghrib", .str ""), ("maghrib_jamaah", .str ""), ("isha", .str ""),
        ("isha_jamaah", .str "") ]
  ∧ normalise_ramadan_day dk [] rd =
      [ ("date", .str dk), ("ramadan_day", .num rd), ("fajr", .str ""),
        ("suhoor_end", .str ""), ("sunrise", .str ""), ("dhuhr", .str ""),
        ("asr", .str ""), ("asr_hanafi", .str ""), ("maghrib", .str ""),
        ("iftar", .str ""), ("isha", .str "") ] := by
  intro dk raw rd
  refine ⟨?_, ?_, ?_, ?_, rfl, rfl, rfl, rfl, rfl, rfl, rfl, rfl, rfl, rfl, rfl, rfl,
    rfl, rfl, rfl, rfl, rfl, rfl, rfl, rfl, rfl, rfl, rfl, rfl, rfl, rfl⟩
  · intro f hf
    fin_cases hf <;> rfl
  · intro f hf
    fin_cases hf <;> rfl
  · intro f hf
    fin_cases hf <;> rfl
  · intro a ha
    unfold rawGet
    rw [ha]
    rfl

/-- Witness for the amended C5 at a concrete field and day: the 7-day
normaliser emits `fajr_jamaah`, the Ramadan normaliser does not, and an
absent alias defaults to the empty string. -/
theorem normalised_day_fields_witness :
    ("fajr_jamaah" ∈ "date" :: fixedTimeFields)
  ∧ (dictGet (normalise_day "2024-03-10" []) "fajr_jamaah").isSome = true
  ∧ ("fajr_jamaah" ∈ jamaahFields)
  ∧ dictGet (normalise_ramadan_day "2024-03-10" [] 1) "fajr_jamaah" = none
  ∧ dictGet ([] : Dict) "magrib" = none
  ∧ rawGet [] "magrib" = .str "" := by
  have h := normalised_day_fields "2024-03-10" [] 1
  exact ⟨by decide, h.1 "fajr_jamaah" (by decide), by decide,
    h.2.2.1 "fajr_jamaah" (by decide), rfl, h.2.2.2.1 "magrib" rfl⟩

/-- Claim C9: `_load_existing_days` returns an empty day collection when the
previous output file is absent, fails JSON decoding, or parses to an object
without a `days` list, and filters non-object or date-less entries — but a
file whose content parses to a non-object JSON value (e.g. the text `[]`)
raises an uncaught `AttributeError` instead of being treated as "no snapshot
available". -/
theorem load_existing_days_behaviour :
    load_existing_days .absent = .ok []
  ∧ load_existing_days .invalidJson = .ok []
  ∧ load_existing_days (.parsed (.obj [])) = .ok []
  ∧ load_existing_days (.parsed (.obj [("days", .str "oops")])) = .ok []
  ∧ load_existing_days (.parsed (.obj [("days", .arr
      [.obj [("date", .str "2024-01-01")], .str "junk", .obj [("label", .null)]])]))
      = .ok [.obj [("date", .str "2024-01-01")]]
  ∧ load_existing_days (.parsed (.arr [])) = .error .attrError :=
  ⟨rfl, rfl, rfl, rfl, rfl, rfl⟩

/-! ## C1: the Ramadan range resolver -/

theorem ramadan_go_nomatch (conv : Nat → Nat → Nat → Option GDate) (year : Int) :
    ∀ l : List Nat, (∀ hy ∈ l, ramadan_match conv year hy = false) →
    (∀ hy ∈ l, (conv hy 9 1).isSome = true) →
    ramadan_go conv year l = .error (.resolutionError year) := by
  intro l
  induction l with
  | nil => intro _ _; rfl
  | cons hy rest ih =>
    intro hfail hsome
    have h1 := hsome hy (List.mem_cons_self _ _)
    cases hconv : conv hy 9 1 with
    | none => rw [hconv] at h1; simp at h1
    | some d =>
      have hm := hfail hy (List.mem_cons_self _ _)
      simp only [ramadan_match, hconv] at hm
      simp only [ramadan_go, hconv, hm, Bool.false_eq_true, if_false]
      exact ih (fun x hx => hfail x (List.mem_cons_of_mem _ hx))
        (fun x hx => hsome x (List.mem_cons_of_mem _ hx))

theorem ramadan_go_append (conv : Nat → Nat → Nat → Option GDate) (year : Int) :
    ∀ (l₁ l₂ : List Nat), (∀ hy ∈ l₁, ramadan_match conv year hy = false) →
    (∀ hy ∈ l₁, (conv hy 9 1).isSome = true) →
    ramadan_go conv year (l₁ ++ l₂) = ramadan_go conv year l₂ := by
  intro l₁
  induction l₁ with
  | nil => intro l₂ _ _; rfl
  | cons hy rest ih =>
    intro l₂ hfail hsome
    have h1 := hsome hy (List.mem_cons_self _ _)
    cases hconv : conv hy 9 1 with
    | none => rw [hconv] at h1; simp at h1
    | some d =>
      have hm := hfail hy (List.mem_cons_self _ _)
      simp only [ramadan_match, hconv] at hm
      simp only [List.cons_append, ramadan_go, hconv, hm, Bool.false_eq_true, if_false]
      exact ih l₂ (fun x hx => hfail x (List.mem_cons_of_mem _ hx))
        (fun x hx => hsome x (List.mem_cons_of_mem _ hx))

/-- Claim C1: for the first Hijri year in the searched span 1440..1459 whose
Ramadan 1st converts into the requested Gregorian year (or December of the
prior year), `_get_ramadan_range` returns that converted date as the start;
the end is the conversion of Hijri day 30, or of day 29 when the library
rejects day 30; and when no Hijri year in the span matches it raises the
resolution error naming the requested year. -/
theorem get_ramadan_range_resolves (conv : Nat → Nat → Nat → Option GDate) (year : Int)
    (hsome : ∀ hy ∈ List.range' 1440 20, (conv hy 9 1).isSome = true) :
    ((∀ hy ∈ List.range' 1440 20, ramadan_match conv year hy = false) →
      get_ramadan_range conv year = .error (.resolutionError year))
  ∧ (∀ (l₁ : List Nat) (hy₀ : Nat) (l₂ : List Nat) (d : GDate),
      List.range' 1440 20 = l₁ ++ hy₀ :: l₂ →
      (∀ hy ∈ l₁, ramadan_match conv year hy = false) →
      ramadan_match conv year hy₀ = true →
      conv hy₀ 9 1 = some d →
      ((∀ e, conv hy₀ 9 30 = some e → get_ramadan_range conv year = .ok (d, e))
       ∧ (conv hy₀ 9 30 = none →
          ∀ e, conv hy₀ 9 29 = some e → get_ramadan_range conv year = .ok (d, e)))) := by
  constructor
  · intro hall
    exact ramadan_go_nomatch conv year _ hall hsome
  · intro l₁ hy₀ l₂ d hsplit hfail hm hconv
    have hsome₁ : ∀ hy ∈ l₁, (conv hy 9 1).isSome = true := by
      intro hy hyl
      exact hsome hy (by rw [hsplit]; exact List.mem_append_left _ hyl)
    have hgo : get_ramadan_range conv year = ramadan_go conv year (hy₀ :: l₂) := by
      unfold get_ramadan_range
      rw [hsplit]
      exact ramadan_go_append conv year l₁ _ hfail hsome₁
    simp only [ramadan_match, hconv] at hm
    constructor
    · intro e h30
      rw [hgo]
      simp only [ramadan_go, hconv, hm, if_true, h30]
    · intro h30 e h29
      rw [hgo]
      simp only [ramadan_go, hconv, hm, if_true, h30, h29]

/-- Witness for C1 at the concrete conversion oracle `convW` and year 2024:
the hypotheses hold and the resolver returns 2024-03-11 .. 2024-04-08
(day 30 rejected, day 29 fallback). -/
theorem get_ramadan_range_resolves_witness :
    (∀ hy ∈ List.range' 1440 20, (convW hy 9 1).isSome = true)
  ∧ get_ramadan_range convW 2024 = .ok (⟨2024, 3, 11⟩, ⟨2024, 4, 8⟩) := by
  have hsome : ∀ hy ∈ List.range' 1440 20, (convW hy 9 1).isSome = true := by decide
  refine ⟨hsome, ?_⟩
  have h := (get_ramadan_range_resolves convW 2024 hsome).2
    (List.range' 1440 5) 1445 (List.range' 1446 14) ⟨2024, 3, 11⟩
    (by decide) (by decide) (by decide) (by decide)
  exact h.2 (by decide) ⟨2024, 4, 8⟩ (by decide)

/-! ## C2: the resilient month fetch -/

theorem fetchGo_allFail (net : Nat → Nat → NetResult) (year month : Nat) :
    ∀ (l : List (Nat × Nat)) (last : Option String),
    (∀ q ∈ l, (callErr net year month q).isSome = true) →
    fetchGo net year month l last =
      (l, .error (.fetchFailed year month (lastErrOf net year month l last))) := by
  intro l
  induction l with
  | nil => intro last _; rfl
  | cons p rest ih =>
    intro last hfail
    have h1 := hfail p (List.mem_cons_self _ _)
    cases htry : tryEndpoint year month (net p.1 p.2) with
    | ok t => simp [callErr, htry] at h1
    | error s =>
      have hce : callErr net year month p = some s := by simp only [callErr, htry]
      simp only [fetchGo, htry]
      rw [ih (some s) (fun x hx => hfail x (List.mem_cons_of_mem _ hx))]
      simp only [lastErrOf, List.foldl_cons, hce]

theorem fetchGo_skip (net : Nat → Nat → NetResult) (year month : Nat) :
    ∀ (l₁ l₂ : List (Nat × Nat)) (last : Option String),
    (∀ q ∈ l₁, (callErr net year month q).isSome = true) →
    fetchGo net year month (l₁ ++ l₂) last =
      (l₁ ++ (fetchGo net year month l₂ (lastErrOf net year month l₁ last)).1,
       (fetchGo net year month l₂ (lastErrOf net year month l₁ last)).2) := by
  intro l₁
  induction l₁ with
  | nil => intro l₂ last _; simp [lastErrOf]
  | cons p rest ih =>
    intro l₂ last hfail
    have h1 := hfail p (List.mem_cons_self _ _)
    cases htry : tryEndpoint year month (net p.1 p.2) with
    | ok t => simp [callErr, htry] at h1
    | error s =>
      have hce : callErr net year month p = some s := by simp only [callErr, htry]
      simp only [List.cons_append, fetchGo, htry]
      simp only [List.append_eq]
      rw [ih l₂ (some s) (fun x hx => hfail x (List.mem_cons_of_mem _ hx))]
      simp only [lastErrOf, List.foldl_cons, hce, List.cons_append]

/-- Claim C2: `_fetch_month` walks attempt counters 1..max_attempts, within
each attempt every endpoint in order; it returns the `times` dict of the
first call whose response is a 2xx JSON payload with a dict-valued `times`
and issues no further calls; once every attempt on every endpoint has failed
it raises a typed fetch error naming the fetched year/month and wrapping the
last recorded underlying error. -/
theorem fetch_month_spec (net : Nat → Nat → NetResult) (maxAttempts nUrls year month : Nat) :
    (∀ (l₁ : List (Nat × Nat)) (p : Nat × Nat) (l₂ : List (Nat × Nat)) (t : Dict),
      attemptPairs maxAttempts nUrls = l₁ ++ p :: l₂ →
      (∀ q ∈ l₁, (callErr net year month q).isSome = true) →
      tryEndpoint year month (net p.1 p.2) = .ok t →
      fetch_month net maxAttempts nUrls year month = (l₁ ++ [p], .ok t))
  ∧ ((∀ q ∈ attemptPairs maxAttempts nUrls, (callErr net year month q).isSome = true) →
      fetch_month net maxAttempts nUrls year month =
        (attemptPairs maxAttempts nUrls,
         .error (.fetchFailed year month
           (lastErrOf net year month (attemptPairs maxAttempts nUrls) none)))) := by
  constructor
  · intro l₁ p l₂ t hsplit hfail htry
    unfold fetch_month
    rw [hsplit, fetchGo_skip net year month l₁ (p :: l₂) none hfail]
    simp only [fetchGo, htry]
  · intro hall
    unfold fetch_month
    exact fetchGo_allFail net year month _ none hall

/-- Witness for C2 at the concrete network oracle `netW`: the first call of
attempt 1 fails, the second endpoint succeeds, no further call is issued. -/
theorem fetch_month_spec_witness :
    attemptPairs 3 2 = [(1, 0)] ++ (1, 1) :: [(2, 0), (2, 1), (3, 0), (3, 1)]
  ∧ fetch_month netW 3 2 2025 1 =
      ([(1, 0)] ++ [(1, 1)],
       .ok [("2025-01-01", .obj [("fajr", .str "06:30")])]) := by
  refine ⟨by decide, ?_⟩
  exact (fetch_month_spec netW 3 2 2025 1).1
    [(1, 0)] (1, 1) [(2, 0), (2, 1), (3, 0), (3, 1)]
    [("2025-01-01", .obj [("fajr", .str "06:30")])]
    (by decide) (by decide) rfl

/-! ## C4: calendar-order lemmas and the Ramadan day iteration -/

theorem monthLen_pos (y : Int) (m : Nat) : 28 ≤ monthLen y m := by
  unfold monthLen
  split_ifs <;> omega

theorem dateLe_refl (a : GDate) : dateLe a a = true := by
  simp [dateLe]

theorem dateLe_trans {a b c : GDate} (h1 : dateLe a b = true) (h2 : dateLe b c = true) :
    dateLe a c = true := by
  simp only [dateLe, Bool.or_eq_true, Bool.and_eq_true, decide_eq_true_eq] at *
  omega

theorem dateLe_succ {dt : GDate} (h : isValidDate dt = true) :
    dateLe dt (succDate dt) = true := by
  obtain ⟨y, m, d⟩ := dt
  simp only [isValidDate, Bool.and_eq_true, decide_eq_true_eq] at h
  unfold succDate
  split_ifs <;>
    simp only [dateLe, Bool.or_eq_true, Bool.and_eq_true, decide_eq_true_eq,
      eq_self_iff_true, true_and, and_true] at * <;>
    omega

theorem succ_not_le {dt : GDate} (h : isValidDate dt = true) :
    dateLe (succDate dt) dt = false := by
  obtain ⟨y, m, d⟩ := dt
  simp only [isValidDate, Bool.and_eq_true, decide_eq_true_eq] at h
  rw [Bool.eq_false_iff]
  intro hc
  unfold succDate at hc
  split_ifs at hc <;>
    simp only [dateLe, Bool.or_eq_true, Bool.and_eq_true, decide_eq_true_eq,
      eq_self_iff_true, true_and, and_true] at * <;>
    omega

theorem isObjSome_exists {o : Option Json} (h : isObjSome o = true) :
    ∃ kvs, o = some (.obj kvs) := by
  match o with
  | some (.obj kvs) => exact ⟨kvs, rfl⟩
  | none | some .null | some (.bool _) | some (.num _) | some (.str _) | some (.arr _) =>
    simp [isObjSome] at h

theorem nextPresent_eq_succ {dt : GDate} (hv : isValidDate dt = true)
    (hnf : ¬(dt.m = 2 ∧ dt.d = 28 ∧ isLeap dt.y = true)) :
    nextPresent dt = .ok (succDate dt) := by
  obtain ⟨y, m, d⟩ := dt
  simp only [isValidDate, Bool.and_eq_true, decide_eq_true_eq] at hv
  obtain ⟨⟨⟨⟨⟨hy1, hy2⟩, hm1⟩, hm2⟩, hd1⟩, hd2⟩ := hv
  simp only at hd2 hnf
  by_cases h12 : m = 12 ∧ d = 31
  · obtain ⟨hm, hd⟩ := h12
    subst hm
    subst hd
    have hml : monthLen y 12 = 31 := by simp [monthLen]
    simp [nextPresent, succDate, hml]
  · by_cases h282 : d = 28 ∧ m = 2
    · obtain ⟨hd, hm⟩ := h282
      subst hd
      subst hm
      have hnl : isLeap y = false := by
        rcases Bool.eq_false_or_eq_true (isLeap y) with h | h
        · exact absurd ⟨rfl, rfl, h⟩ hnf
        · exact h
      have hml : monthLen y 2 = 28 := by simp [monthLen, hnl]
      simp [nextPresent, succDate, hml]
    · by_cases hlt : d < monthLen y m
      · have hval : isValidDate ⟨y, m, d + 1⟩ = true := by
          simp only [isValidDate, Bool.and_eq_true, decide_eq_true_eq]
          refine ⟨⟨⟨⟨⟨hy1, hy2⟩, hm1⟩, hm2⟩, by omega⟩, by omega⟩
        simp [nextPresent, succDate, h12, h282, mkDate, hval, hlt]
      · have hm12 : m < 12 := by
          rcases Nat.lt_or_ge m 12 with h | h
          · exact h
          · exfalso
            have hm' : m = 12 := by omega
            have hml : monthLen y 12 = 31 := by simp [monthLen]
            apply h12
            subst hm'
            omega
        have hinval : isValidDate ⟨y, m, d + 1⟩ = false := by
          rw [Bool.eq_false_iff]
          intro hc
          simp only [isValidDate, Bool.and_eq_true, decide_eq_true_eq] at hc
          omega
        have hval2 : isValidDate ⟨y, m + 1, 1⟩ = true := by
          have hp := monthLen_pos y (m + 1)
          simp only [isValidDate, Bool.and_eq_true, decide_eq_true_eq]
          refine ⟨⟨⟨⟨⟨hy1, hy2⟩, by omega⟩, by omega⟩, by omega⟩, by omega⟩
        simp [nextPresent, succDate, h12, h282, mkDate, hinval, hval2, hlt, hm12]

theorem succIter_valid_le {s : GDate} :
    ∀ n : Nat, (∀ k, k ≤ n → isValidDate (succIter s k) = true) →
    dateLe s (succIter s n) = true := by
  intro n
  induction n generalizing s with
  | zero => intro _; exact dateLe_refl s
  | succ n ih =>
    intro hval
    have h0 : isValidDate s = true := hval 0 (by omega)
    have h1 : dateLe s (succDate s) = true := dateLe_succ h0
    have h2 : dateLe (succDate s) (succIter (succDate s) n) = true :=
      ih (fun k hk => hval (k + 1) (by omega))
    exact dateLe_trans h1 h2

theorem ramadanLoop_complete (combined : Dict) :
    ∀ (n : Nat) (startD : GDate) (fuel : Nat) (rday : Int),
    (∀ k, k ≤ n → isValidDate (succIter startD k) = true) →
    (∀ k, k ≤ n → isObjSome (dictGet combined (isoFormat (succIter startD k))) = true) →
    (∀ k, k ≤ n → ¬((succIter startD k).m = 2 ∧ (succIter startD k).d = 28 ∧
        isLeap (succIter startD k).y = true)) →
    n + 2 ≤ fuel →
    ∃ days, ramadanLoop combined (succIter startD n) fuel startD rday =
      .ok (listFrom startD (n + 1), days, []) := by
  intro n
  induction n with
  | zero =>
    intro startD fuel rday hval hobj hnf hfuel
    obtain ⟨f, rfl⟩ : ∃ f, fuel = f + 1 + 1 := ⟨fuel - 2, by omega⟩
    have h0 : isValidDate startD = true := hval 0 (by omega)
    obtain ⟨raw, hraw⟩ := isObjSome_exists (hobj 0 (by omega))
    have hnext : nextPresent startD = .ok (succDate startD) :=
      nextPresent_eq_succ h0 (hnf 0 (by omega))
    have hstop : dateLe (succDate startD) startD = false := succ_not_le h0
    have hraw' : dictGet combined (isoFormat startD) = some (.obj raw) := hraw
    refine ⟨[.obj (normalise_ramadan_day (isoFormat startD) raw rday)], ?_⟩
    show ramadanLoop combined startD (f + 1 + 1) startD rday = _
    rw [ramadanLoop]
    simp only [dateLe_refl, if_true, hraw', hnext]
    rw [ramadanLoop]
    simp [hstop, listFrom]
  | succ n ih =>
    intro startD fuel rday hval hobj hnf hfuel
    obtain ⟨f, rfl⟩ : ∃ f, fuel = f + 1 := ⟨fuel - 1, by omega⟩
    have h0 : isValidDate startD = true := hval 0 (by omega)
    obtain ⟨raw, hraw⟩ := isObjSome_exists (hobj 0 (by omega))
    have hnext : nextPresent startD = .ok (succDate startD) :=
      nextPresent_eq_succ h0 (hnf 0 (by omega))
    have hle : dateLe startD (succIter startD (n + 1)) = true :=
      succIter_valid_le (n + 1) hval
    obtain ⟨days', ih'⟩ := ih (succDate startD) f (rday + 1)
      (fun k hk => hval (k + 1) (by omega))
      (fun k hk => hobj (k + 1) (by omega))
      (fun k hk => hnf (k + 1) (by omega))
      (by omega)
    have hraw' : dictGet combined (isoFormat startD) = some (.obj raw) := hraw
    have ih'' : ramadanLoop combined (succIter startD (n + 1)) f (succDate startD) (rday + 1) =
        .ok (listFrom (succDate startD) (n + 1), days', []) := ih'
    refine ⟨.obj (normalise_ramadan_day (isoFormat startD) raw rday) :: days', ?_⟩
    rw [ramadanLoop]
    simp only [hle, if_true, hraw', hnext, ih'']
    simp [listFrom]

/-- Claim C4 (amended): when every date of the inclusive range carries fetched
data and the range contains no leap-year February 28, the Ramadan loop visits
exactly the ascending, gap-free sequence of calendar dates from start to end
(no duplicates, no skips) and records nothing missing. -/
theorem ramadan_iteration_gap_free (combined : Dict) (startD endD : GDate)
    (n fuel : Nat) (rday : Int)
    (hend : succIter startD n = endD)
    (hval : ∀ k, k ≤ n → isValidDate (succIter startD k) = true)
    (hobj : ∀ k, k ≤ n → isObjSome (dictGet combined (isoFormat (succIter startD k))) = true)
    (hnf : ∀ k, k ≤ n → ¬((succIter startD k).m = 2 ∧ (succIter startD k).d = 28 ∧
        isLeap (succIter startD k).y = true))
    (hfuel : n + 2 ≤ fuel) :
    ∃ days, ramadanLoop combined endD fuel startD rday =
      .ok (listFrom startD (n + 1), days, []) := by
  subst hend
  exact ramadanLoop_complete combined n startD fuel rday hval hobj hnf hfuel

/-- Witness for the amended C4 on a concrete two-day range with full data. -/
theorem ramadan_iteration_gap_free_witness :
    succIter ⟨2024, 3, 30⟩ 1 = (⟨2024, 3, 31⟩ : GDate)
  ∧ ∃ days, ramadanLoop comb4 ⟨2024, 3, 31⟩ 4 ⟨2024, 3, 30⟩ 1 =
      .ok (listFrom ⟨2024, 3, 30⟩ 2, days, []) :=
  ⟨by decide,
   ramadan_iteration_gap_free comb4 ⟨2024, 3, 30⟩ ⟨2024, 3, 31⟩ 1 4 1
     (by decide) (by decide) (by decide) (by decide) (by omega)⟩

/-- Claim C4 counterexample: the iteration is NOT gap-free for every range.
With the range 2024-03-27 .. 2024-03-31 and no fetched data, the day-28
missing-data rollover jumps from March 28 to April 1, so March 29-31 are
never visited (and never reported missing); with the range
2024-02-27 .. 2024-03-01 and data present for every day including leap day
2024-02-29, the February-28 rollover jumps to March 1 and leap day
2024-02-29 is silently skipped. -/
theorem ramadan_iteration_skips_days :
    ramadanLoop [] ⟨2024, 3, 31⟩ 10 ⟨2024, 3, 27⟩ 1 =
      .ok ([⟨2024, 3, 27⟩, ⟨2024, 3, 28⟩], [], ["2024-03-27", "2024-03-28"])
  ∧ succIter ⟨2024, 3, 27⟩ 4 = (⟨2024, 3, 31⟩ : GDate)
  ∧ listFrom ⟨2024, 3, 27⟩ 5 =
      [⟨2024, 3, 27⟩, ⟨2024, 3, 28⟩, ⟨2024, 3, 29⟩, ⟨2024, 3, 30⟩, ⟨2024, 3, 31⟩]
  ∧ ([⟨2024, 3, 27⟩, ⟨2024, 3, 28⟩] : List GDate) ≠ listFrom ⟨2024, 3, 27⟩ 5
  ∧ ramadanLoop comb4b ⟨2024, 3, 1⟩ 10 ⟨2024, 2, 27⟩ 1 =
      .ok ([⟨2024, 2, 27⟩, ⟨2024, 2, 28⟩, ⟨2024, 3, 1⟩],
           [.obj (normalise_ramadan_day "2024-02-27" [] 1),
            .obj (normalise_ramadan_day "2024-02-28" [] 2),
            .obj (normalise_ramadan_day "2024-03-01" [] 3)], [])
  ∧ succIter ⟨2024, 2, 27⟩ 3 = (⟨2024, 3, 1⟩ : GDate)
  ∧ listFrom ⟨2024, 2, 27⟩ 4 =
      [⟨2024, 2, 27⟩, ⟨2024, 2, 28⟩, ⟨2024, 2, 29⟩, ⟨2024, 3, 1⟩]
  ∧ ([⟨2024, 2, 27⟩, ⟨2024, 2, 28⟩, ⟨2024, 3, 1⟩] : List GDate) ≠ listFrom ⟨2024, 2, 27⟩ 4 :=
  ⟨rfl, by decide, by decide, by decide, rfl, by decide, by decide, by decide⟩

/-! ## Helper lemmas about the 7-day / 1-year builders -/

theorem api_key7_ne (env : Option String) : api_key7 env ≠ "" := by
  unfold api_key7
  match env with
  | none => simp [DEFAULT_API_KEY]
  | some v =>
    show (if v.trim ≠ "" then v.trim else DEFAULT_API_KEY) ≠ ""
    split_ifs with h
    · exact h
    · simp [DEFAULT_API_KEY]

theorem api_key_year_ok_ne {env : Option String} {k : String}
    (h : api_key_year env = .ok k) : k ≠ "" := by
  unfold api_key_year at h
  split_ifs at h with hcond
  cases h
  exact hcond

theorem combineGo_any : ∀ (l : List (Except Err Dict)) (acc : Dict),
    (combineGo acc l).2 = l.any fetchRaised := by
  intro l
  induction l with
  | nil => intro acc; rfl
  | cons r rest ih =>
    intro acc
    cases r with
    | error e => simp [combineGo, fetchRaised, List.any_cons]
    | ok t => simp [combineGo, fetchRaised, List.any_cons, ih]

theorem buildDays_mem_mono {combined staleMap : Dict} (t : String) (rest : List String)
    {x : Json} (hx : x ∈ (buildDays rest combined staleMap).1) :
    x ∈ (buildDays (t :: rest) combined staleMap).1 := by
  show x ∈ (buildDays (t :: rest) combined staleMap).1
  unfold buildDays
  cases hg : dictGet combined t with
  | none =>
    cases hs : dictGet staleMap t with
    | none => exact hx
    | some s =>
      by_cases ho : s.isObj = true
      · simp only [ho, if_true]
        exact List.mem_cons_of_mem _ hx
      · simp only [Bool.not_eq_true] at ho
        simp only [ho, Bool.false_eq_true, if_false]
        exact hx
  | some j =>
    cases j with
    | obj raw => exact List.mem_cons_of_mem _ hx
    | null | bool b | num n | str s0 | arr xs =>
      cases hs : dictGet staleMap t with
      | none => exact hx
      | some s =>
        by_cases ho : s.isObj = true
        · simp only [ho, if_true]
          exact List.mem_cons_of_mem _ hx
        · simp only [Bool.not_eq_true] at ho
          simp only [ho, Bool.false_eq_true, if_false]
          exact hx

theorem buildDays_missing_mono {combined staleMap : Dict} (t : String) (rest : List String)
    {dk : String} (hx : dk ∈ (buildDays rest combined staleMap).2) :
    dk ∈ (buildDays (t :: rest) combined staleMap).2 := by
  unfold buildDays
  cases hg : dictGet combined t with
  | none =>
    cases hs : dictGet staleMap t with
    | none => exact List.mem_cons_of_mem _ hx
    | some s =>
      by_cases ho : s.isObj = true
      · simp only [ho, if_true]
        exact hx
      · simp only [Bool.not_eq_true] at ho
        simp only [ho, Bool.false_eq_true, if_false]
        exact List.mem_cons_of_mem _ hx
  | some j =>
    cases j with
    | obj raw => exact hx
    | null | bool b | num n | str s0 | arr xs =>
      cases hs : dictGet staleMap t with
      | none => exact List.mem_cons_of_mem _ hx
      | some s =>
        by_cases ho : s.isObj = true
        · simp only [ho, if_true]
          exact hx
        · simp only [Bool.not_eq_true] at ho
          simp only [ho, Bool.false_eq_true, if_false]
          exact List.mem_cons_of_mem _ hx

theorem buildDays_stale_mem : ∀ (targets : List String) (combined staleMap : Dict)
    (dk : String) (kvs : Dict),
    dk ∈ targets →
    isObjSome (dictGet combined dk) = false →
    dictGet staleMap dk = some (.obj kvs) →
    Json.obj kvs ∈ (buildDays targets combined staleMap).1 := by
  intro targets
  induction targets with
  | nil => intro _ _ _ _ h; simp at h
  | cons t rest ih =>
    intro combined staleMap dk kvs hmem hfresh hstale
    rcases List.mem_cons.mp hmem with rfl | hmem'
    · unfold buildDays
      cases hg : dictGet combined dk with
      | none =>
        rw [hstale]
        simp only [Json.isObj, if_true]
        exact List.mem_cons_self _ _
      | some j =>
        cases j with
        | obj raw => rw [hg] at hfresh; simp [isObjSome] at hfresh
        | null | bool b | num n | str s0 | arr xs =>
          rw [hstale]
          simp only [Json.isObj, if_true]
          exact List.mem_cons_self _ _
    · exact buildDays_mem_mono t rest (ih combined staleMap dk kvs hmem' hfresh hstale)

theorem buildDays_missing_mem : ∀ (targets : List String) (combined staleMap : Dict)
    (dk : String),
    dk ∈ targets →
    isObjSome (dictGet combined dk) = false →
    isObjSome (dictGet staleMap dk) = false →
    dk ∈ (buildDays targets combined staleMap).2 := by
  intro targets
  induction targets with
  | nil => intro _ _ _ h; simp at h
  | cons t rest ih =>
    intro combined staleMap dk hmem hfresh hstale
    rcases List.mem_cons.mp hmem with rfl | hmem'
    · unfold buildDays
      have hbranch : ∀ r : List Json × List String,
          dk ∈ (match dictGet staleMap dk with
            | some s => if s.isObj then (s :: r.1, r.2) else (r.1, dk :: r.2)
            | none => (r.1, dk :: r.2)).2 := by
        intro r
        cases hs : dictGet staleMap dk with
        | none => exact List.mem_cons_self _ _
        | some s =>
          cases s with
          | obj kvs => rw [hs] at hstale; simp [isObjSome] at hstale
          | null | bool b | num n | str s0 | arr xs =>
            simp only [Json.isObj, Bool.false_eq_true, if_false]
            exact List.mem_cons_self _ _
      cases hg : dictGet combined dk with
      | none => exact hbranch _
      | some j =>
        cases j with
        | obj raw => rw [hg] at hfresh; simp [isObjSome] at hfresh
        | null | bool b | num n | str s0 | arr xs => exact hbranch _
    · exact buildDays_missing_mono t rest (ih combined staleMap dk hmem' hfresh hstale)

theorem main7d_eq (env : Option String) (genAt effToday : String) (targets : List String)
    (fetches : List (Except Err Dict)) (fs : FileState) (ex : List Json)
    (hload : load_existing_days fs = .ok ex) :
    main7d env genAt effToday targets fetches fs =
      (if (buildDays targets (combineFetches fetches).1 (dates_map ex)).2 = [] then
        ([payload7d genAt effToday (combineFetches fetches).2
            (buildDays targets (combineFetches fetches).1 (dates_map ex)).1], .ok ())
      else
        ([], .error (.generationError
          ("Missing timetable data for dates: " ++ String.intercalate ", "
            (buildDays targets (combineFetches fetches).1 (dates_map ex)).2)))) := by
  unfold main7d
  rw [if_neg (api_key7_ne env), hload]

/-! ## C3 and C10: stale fallback and the fallback_used flag -/

/-- Claim C3 counterexample: with a single target date absent from a
SUCCESSFUL fetch (empty `times`) but present in the stale snapshot, the
builder substitutes the snapshot record yet writes `fallback_used = false`,
not `true` as the claim requires. -/
theorem stale_substitution_without_flag :
    main7d none "g" "2024-06-05" ["2024-06-05"] [.ok []] stale35 =
      ([payload7d "g" "2024-06-05" false [staleDay35]], .ok ())
  ∧ objGet (payload7d "g" "2024-06-05" false [staleDay35]) "fallback_used" =
      some (.bool false)
  ∧ objGet (payload7d "g" "2024-06-05" false [staleDay35]) "fallback_used" ≠
      some (.bool true) := by
  refine ⟨rfl, rfl, ?_⟩
  intro h
  simp only [objGet, payload7d] at h
  cases h

/-- Claim C3 (amended): a target date absent from the fresh results but
present (as an object) in the stale snapshot is always filled from the
snapshot — regardless of whether the fetch raised — while `fallback_used`
records precisely whether the fetch raised; a target date absent from both
makes the run fail with a generation error whose message lists that date
among the complete missing list. -/
theorem stale_fallback_behaviour (env : Option String) (genAt effToday : String)
    (targets : List String) (fetches : List (Except Err Dict)) (fs : FileState)
    (ex : List Json) (dk : String)
    (hload : load_existing_days fs = .ok ex)
    (hmem : dk ∈ targets)
    (hfresh : isObjSome (dictGet (combineFetches fetches).1 dk) = false) :
    (∀ kvs, dictGet (dates_map ex) dk = some (.obj kvs) →
      Json.obj kvs ∈ (buildDays targets (combineFetches fetches).1 (dates_map ex)).1)
  ∧ (isObjSome (dictGet (dates_map ex) dk) = false →
      dk ∈ (buildDays targets (combineFetches fetches).1 (dates_map ex)).2
      ∧ (main7d env genAt effToday targets fetches fs).2 =
          .error (.generationError ("Missing timetable data for dates: " ++
            String.intercalate ", "
              (buildDays targets (combineFetches fetches).1 (dates_map ex)).2)))
  ∧ (∀ p, (main7d env genAt effToday targets fetches fs).1 = [p] →
      objGet p "fallback_used" = some (.bool (combineFetches fetches).2)) := by
  refine ⟨?_, ?_, ?_⟩
  · intro kvs hstale
    exact buildDays_stale_mem targets _ _ dk kvs hmem hfresh hstale
  · intro hstale
    have hmiss := buildDays_missing_mem targets _ _ dk hmem hfresh hstale
    have hne : (buildDays targets (combineFetches fetches).1 (dates_map ex)).2 ≠ [] := by
      intro hnil
      rw [hnil] at hmiss
      simp at hmiss
    refine ⟨hmiss, ?_⟩
    rw [main7d_eq env genAt effToday targets fetches fs ex hload, if_neg hne]
  · intro p hp
    rw [main7d_eq env genAt effToday targets fetches fs ex hload] at hp
    by_cases hb : (buildDays targets (combineFetches fetches).1 (dates_map ex)).2 = []
    · rw [if_pos hb] at hp
      simp only [List.cons.injEq, and_true] at hp
      rw [← hp]
      rfl
    · rw [if_neg hb] at hp
      cases hp

/-- Witness for the amended C3: the concrete scenario of the counterexample,
run through the amended theorem — the stale record is substituted. -/
theorem stale_fallback_behaviour_witness :
    load_existing_days stale35 = .ok [staleDay35]
  ∧ Json.obj [("date", .str "2024-06-05"), ("fajr", .str "02:58")] ∈
      (buildDays ["2024-06-05"] (combineFetches [.ok []]).1 (dates_map [staleDay35])).1 := by
  refine ⟨rfl, ?_⟩
  exact (stale_fallback_behaviour none "g" "e" ["2024-06-05"] [.ok []] stale35
    [staleDay35] "2024-06-05" rfl (by simp) rfl).1
    [("date", .str "2024-06-05"), ("fajr", .str "02:58")] rfl

/-- Claim C10: `fallback_used` in the written payload equals exactly whether
some per-month fetch raised (the `network_failed` flag), independent of
whether any stale record was substituted; and any target date missing from
the fresh results with an object record in the snapshot is inserted into the
written `days` verbatim (the snapshot object itself, not a renormalisation). -/
theorem fallback_flag_tracks_network (env : Option String) (genAt effToday : String)
    (targets : List String) (fetches : List (Except Err Dict)) (fs : FileState)
    (ex : List Json)
    (hload : load_existing_days fs = .ok ex) :
    (combineFetches fetches).2 = fetches.any fetchRaised
  ∧ (∀ p, (main7d env genAt effToday targets fetches fs).1 = [p] →
      objGet p "fallback_used" = some (.bool (fetches.any fetchRaised))
      ∧ objGet p "days" =
          some (.arr (buildDays targets (combineFetches fetches).1 (dates_map ex)).1))
  ∧ (∀ dk kvs, dk ∈ targets →
      isObjSome (dictGet (combineFetches fetches).1 dk) = false →
      dictGet (dates_map ex) dk = some (.obj kvs) →
      Json.obj kvs ∈ (buildDays targets (combineFetches fetches).1 (dates_map ex)).1) := by
  refine ⟨combineGo_any fetches [], ?_, ?_⟩
  · intro p hp
    rw [main7d_eq env genAt effToday targets fetches fs ex hload] at hp
    by_cases hb : (buildDays targets (combineFetches fetches).1 (dates_map ex)).2 = []
    · rw [if_pos hb] at hp
      simp only [List.cons.injEq, and_true] at hp
      rw [← hp, ← combineGo_any fetches []]
      exact ⟨rfl, rfl⟩
    · rw [if_neg hb] at hp
      cases hp
  · intro dk kvs hmem hfresh hstale
    exact buildDays_stale_mem targets _ _ dk kvs hmem hfresh hstale

/-- Witness for C10: a run with one successful and one raising month fetch
has `network_failed = true`, matching `List.any fetchRaised`. -/
theorem fallback_flag_tracks_network_witness :
    load_existing_days stale35 = .ok [staleDay35]
  ∧ (combineFetches [.ok [], .error (.fetchFailed 2024 6 none)]).2 =
      ([.ok [], .error (.fetchFailed 2024 6 none)] : List (Except Err Dict)).any fetchRaised := by
  refine ⟨rfl, ?_⟩
  exact (fallback_flag_tracks_network none "g" "e" ["2024-06-05"]
    [.ok [], .error (.fetchFailed 2024 6 none)] stale35 [staleDay35] rfl).1

/-! ## C7: completeness of the missing-date diagnostics -/

/-- Claim C7: when target dates remain unresolvable, the 7-day and 1-year
generation errors join the COMPLETE missing-date list into the message, while
the Ramadan variant fails whenever its missing list is nonempty (the failure
reflects the full gap) but joins only the first five dates into the displayed
diagnostic. -/
theorem generation_error_lists_missing :
    (∀ (env : Option String) (genAt effToday : String) (targets : List String)
       (fetches : List (Except Err Dict)) (fs : FileState) (ex : List Json),
      load_existing_days fs = .ok ex →
      (buildDays targets (combineFetches fetches).1 (dates_map ex)).2 ≠ [] →
      (main7d env genAt effToday targets fetches fs).2 =
        .error (.generationError ("Missing timetable data for dates: " ++
          String.intercalate ", "
            (buildDays targets (combineFetches fetches).1 (dates_map ex)).2)))
  ∧ (∀ (year : Int) (env : Option String) (genAt : String) (combined : Dict) (k : String),
      api_key_year env = .ok k →
      (buildDays (targets1yr year) combined []).2 ≠ [] →
      (main1yr year env genAt (.ok combined)).2 =
        .error (.generationError ("Missing timetable data for dates: " ++
          String.intercalate ", " (buildDays (targets1yr year) combined []).2)))
  ∧ (∀ (combined : Dict) (startD endD : GDate) (fuel : Nat) (genAt : String)
       (ry : Int) (vis : List GDate) (ds : List Json) (ms : List String),
      ramadanLoop combined endD fuel startD 1 = .ok (vis, ds, ms) →
      ((ms ≠ [] → ramadanBuild combined startD endD fuel genAt ry =
          some ([], .error (.generationError ("Missing timetable data for dates: " ++
            String.intercalate ", " (ms.take 5)))))
       ∧ (ms = [] → ramadanBuild combined startD endD fuel genAt ry =
          some ([payloadRamadan genAt ry startD endD ds], .ok ())))) := by
  refine ⟨?_, ?_, ?_⟩
  · intro env genAt effToday targets fetches fs ex hload hne
    rw [main7d_eq env genAt effToday targets fetches fs ex hload, if_neg hne]
  · intro year env genAt combined k hk hne
    unfold main1yr
    rw [hk]
    simp only [api_key_year_ok_ne hk, if_false]
    rw [if_neg hne]
  · intro combined startD endD fuel genAt ry vis ds ms hloop
    unfold ramadanBuild
    rw [hloop]
    constructor
    · intro hne
      simp only [hne, if_false]
    · intro hnil
      simp only [hnil, if_true]

/-- Witness for C7: two dates missing from an (empty but successful) fetch
with no snapshot; both appear joined in the 7-day error message. -/
theorem generation_error_lists_missing_witness :
    load_existing_days .absent = .ok []
  ∧ (buildDays ["2024-06-06", "2024-06-07"]
      (combineFetches [.ok []]).1 (dates_map [])).2 = ["2024-06-06", "2024-06-07"]
  ∧ (main7d none "g" "e" ["2024-06-06", "2024-06-07"] [.ok []] .absent).2 =
      .error (.generationError ("Missing timetable data for dates: " ++
        String.intercalate ", "
          (buildDays ["2024-06-06", "2024-06-07"]
            (combineFetches [.ok []]).1 (dates_map [])).2)) := by
  refine ⟨rfl, rfl, ?_⟩
  exact (generation_error_lists_missing).1 none "g" "e" ["2024-06-06", "2024-06-07"]
    [.ok []] .absent [] rfl (by decide)

/-! ## C8: no write on fatal failure -/

/-- Claim C8: the output write is the final step of a run — it happens only
when the day sequence validated gap-free, and every fatal failure
(configuration, fetch, load, or generation error) terminates the run with no
payload written, for both the 7-day and the 1-year script. -/
theorem no_write_on_failure :
    (∀ (env : Option String) (genAt effToday : String) (targets : List String)
       (fetches : List (Except Err Dict)) (fs : FileState) (e : Err),
      (main7d env genAt effToday targets fetches fs).2 = .error e →
      (main7d env genAt effToday targets fetches fs).1 = [])
  ∧ (∀ (env : Option String) (genAt effToday : String) (targets : List String)
       (fetches : List (Except Err Dict)) (fs : FileState) (p : Json),
      (main7d env genAt effToday targets fetches fs).1 = [p] →
      (main7d env genAt effToday targets fetches fs).2 = .ok ()
      ∧ ∃ ex, load_existing_days fs = .ok ex
          ∧ (buildDays targets (combineFetches fetches).1 (dates_map ex)).2 = [])
  ∧ (∀ (year : Int) (env : Option String) (genAt : String)
       (fetchRes : Except Err Dict) (e : Err),
      (main1yr year env genAt fetchRes).2 = .error e →
      (main1yr year env genAt fetchRes).1 = [])
  ∧ (∀ (year : Int) (env : Option String) (genAt : String)
       (fetchRes : Except Err Dict) (p : Json),
      (main1yr year env genAt fetchRes).1 = [p] →
      (main1yr year env genAt fetchRes).2 = .ok ()
      ∧ ∃ combined, fetchRes = .ok combined
          ∧ (buildDays (targets1yr year) combined []).2 = []) := by
  refine ⟨?_, ?_, ?_, ?_⟩
  · intro env genAt effToday targets fetches fs e h
    unfold main7d at h ⊢
    by_cases hk : api_key7 env = ""
    · simp [hk]
    · rw [if_neg hk] at h ⊢
      cases hld : load_existing_days fs with
      | error e2 => simp [hld]
      | ok ex =>
        simp only [hld] at h ⊢
        by_cases hb : (buildDays targets (combineFetches fetches).1 (dates_map ex)).2 = []
        · rw [if_pos hb] at h
          simp at h
        · rw [if_neg hb]
  · intro env genAt effToday targets fetches fs p hp
    unfold main7d at hp ⊢
    by_cases hk : api_key7 env = ""
    · rw [if_pos hk] at hp
      simp at hp
    · rw [if_neg hk] at hp ⊢
      cases hld : load_existing_days fs with
      | error e2 => simp [hld] at hp
      | ok ex =>
        simp only [hld] at hp ⊢
        by_cases hb : (buildDays targets (combineFetches fetches).1 (dates_map ex)).2 = []
        · refine ⟨by rw [if_pos hb], ⟨ex, rfl, hb⟩⟩
        · rw [if_neg hb] at hp
          simp at hp
  · intro year env genAt fetchRes e h
    unfold main1yr at h ⊢
    cases hk : api_key_year env with
    | error e2 => simp [hk]
    | ok k =>
      simp only [hk] at h ⊢
      rw [if_neg (api_key_year_ok_ne hk)] at h ⊢
      cases fetchRes with
      | error e3 => simp
      | ok combined =>
        dsimp only at h ⊢
        by_cases hb : (buildDays (targets1yr year) combined []).2 = []
        · rw [if_pos hb] at h
          simp at h
        · rw [if_neg hb]
  · intro year env genAt fetchRes p hp
    unfold main1yr at hp ⊢
    cases hk : api_key_year env with
    | error e2 => simp [hk] at hp
    | ok k =>
      simp only [hk] at hp ⊢
      rw [if_neg (api_key_year_ok_ne hk)] at hp ⊢
      cases fetchRes with
      | error e3 => simp at hp
      | ok combined =>
        dsimp only at hp ⊢
        by_cases hb : (buildDays (targets1yr year) combined []).2 = []
        · refine ⟨by rw [if_pos hb], ⟨combined, rfl, hb⟩⟩
        · rw [if_neg hb] at hp
          simp at hp

/-- Witness for C8: a concrete failing 7-day run (one date, missing from
everything) writes nothing. -/
theorem no_write_on_failure_witness :
    (main7d none "g" "e" ["2099-01-01"] [.ok []] .absent).2 =
      .error (.generationError "Missing timetable data for dates: 2099-01-01")
  ∧ (main7d none "g" "e" ["2099-01-01"] [.ok []] .absent).1 = [] := by
  refine ⟨rfl, ?_⟩
  exact (no_write_on_failure).1 none "g" "e" ["2099-01-01"] [.ok []] .absent
    (.generationError "Missing timetable data for dates: 2099-01-01") rfl
